import Mathlib

/-!
Shallow embedding of `src/main.py` of the prontodex repository, together with
theorems settling the frozen claims about it.

The persistent store `db.json` is a JSON object mapping a user id to a list of
ball names; we model it as an insertion-ordered association list.  Python dict
semantics (first matching key wins, updates touch the first matching entry,
new keys are appended at the end) are mirrored by `lookupS` / `updateKey`.
-/

namespace Prontodex

/-- The contents of `db.json`: user id ↦ list of owned ball names. -/
abbrev Store := List (String × List String)

/-- Python `data[k]` / `k in data`: first entry whose key equals `k`. -/
def lookupS : Store → String → Option (List String)
  | [], _ => none
  | (k, v) :: rest, key => if k = key then some v else lookupS rest key

/-- Python `data[k] = f(data[k])` on an existing key: rewrite the first entry
whose key is `key`, leave everything else in place. -/
def updateKey : Store → String → (List String → List String) → Store
  | [], _, _ => []
  | (k, v) :: rest, key, f =>
      if k = key then (k, f v) :: rest else (k, v) :: updateKey rest key f

/-- The `try: json.load … except: data = {}` idiom used by `give` and by the
catch-credit block of `ballspawn`. -/
def loadStore : Except Unit Store → Store
  | .ok d => d
  | .error _ => []

/-- How many copies of ball `b` user `u` owns in store `d`. -/
def countB (d : Store) (u b : String) : Nat :=
  ((lookupS d u).getD []).count b

/-- Total number of balls in the store, summed over all entries. -/
def totalItems (d : Store) : Nat :=
  (d.map (fun p => p.2.length)).sum

/-- `giver_id in data and ball in data[giver_id]`. -/
def owns (d : Store) (g b : String) : Prop :=
  ∃ l, lookupS d g = some l ∧ b ∈ l

/-- Chat reply of `give` when the giver does not own the ball. -/
def notOwnedMsg (giver ball : String) : String :=
  "Error: <@" ++ giver ++ "> doesn\x27t have the ball " ++ ball ++ " to give."

/-- Chat reply of `give` on success. -/
def giveOkMsg (giver ball receiver : String) : String :=
  "<@" ++ giver ++ "> has successfully given " ++ ball ++ " to <@" ++ receiver ++ ">."

/-- Step `data[giver_id].remove(ball)` of `give`: Python `list.remove` drops
the first occurrence. -/
def giveRemove (data : Store) (ball giver : String) : Store :=
  updateKey data giver (fun lst => lst.erase ball)

/-- Step `if receiver_id not in data: data[receiver_id] = []` of `give`. -/
def giveEnsure (d1 : Store) (receiver : String) : Store :=
  match lookupS d1 receiver with
  | some _ => d1
  | none => d1 ++ [(receiver, [])]

/-- Step `data[receiver_id].append(ball)` of `give`. -/
def giveAppend (d2 : Store) (ball receiver : String) : Store :=
  updateKey d2 receiver (fun lst => lst ++ [ball])

/-- Embedding of `give(ball, giver, receiver)` (src/main.py:291-330).  The
first component is the store written back to `db.json` (`none` when the
function returns before the `json.dump`), the second the reply text sent to
the channel and returned. -/
def give (read : Except Unit Store) (ball giver receiver : String) :
    Option Store × String :=
  let data := loadStore read
  match lookupS data giver with
  | none => (none, notOwnedMsg giver ball)
  | some l =>
      if ball ∈ l then
        (some (giveAppend (giveEnsure (giveRemove data ball giver) receiver) ball receiver),
         giveOkMsg giver ball receiver)
      else (none, notOwnedMsg giver ball)

/-! Association-list lemmas used by the `give` theorems. -/

theorem lookupS_updateKey_self (d : Store) (k : String)
    (f : List String → List String) (v : List String)
    (h : lookupS d k = some v) :
    lookupS (updateKey d k f) k = some (f v) := by
  induction d with
  | nil => simp [lookupS] at h
  | cons p rest ih =>
      obtain ⟨k', v'⟩ := p
      by_cases hk : k' = k
      · subst hk
        simp [lookupS] at h
        subst h
        simp [updateKey, lookupS]
      · simp [lookupS, hk] at h
        simp [updateKey, lookupS, hk, ih h]

theorem lookupS_updateKey_ne (d : Store) (k u : String)
    (f : List String → List String) (h : u ≠ k) :
    lookupS (updateKey d k f) u = lookupS d u := by
  induction d with
  | nil => simp [updateKey]
  | cons p rest ih =>
      obtain ⟨k', v'⟩ := p
      by_cases hk : k' = k
      · have hne : ¬ (k = u) := fun he => h he.symm
        simp [updateKey, hk, lookupS, hne]
      · simp [updateKey, hk, lookupS, ih]

theorem lookupS_append_ne (d : Store) (k u : String) (v : List String)
    (h : u ≠ k) :
    lookupS (d ++ [(k, v)]) u = lookupS d u := by
  induction d with
  | nil =>
      have : ¬ (k = u) := fun he => h he.symm
      simp [lookupS, this]
  | cons p rest ih =>
      obtain ⟨k', v'⟩ := p
      by_cases hu : k' = u
      · simp [lookupS, hu]
      · simp [lookupS, hu, ih]

theorem lookupS_append_self (d : Store) (k : String) (v : List String)
    (h : lookupS d k = none) :
    lookupS (d ++ [(k, v)]) k = some v := by
  induction d with
  | nil => simp [lookupS]
  | cons p rest ih =>
      obtain ⟨k', v'⟩ := p
      by_cases hk : k' = k
      · simp [lookupS, hk] at h
      · simp [lookupS, hk] at h ⊢
        exact ih h

theorem totalItems_updateKey (d : Store) (k : String)
    (f : List String → List String) (v : List String)
    (h : lookupS d k = some v) :
    totalItems (updateKey d k f) + v.length = totalItems d + (f v).length := by
  induction d with
  | nil => simp [lookupS] at h
  | cons p rest ih =>
      obtain ⟨k', v'⟩ := p
      by_cases hk : k' = k
      · subst hk
        simp [lookupS] at h
        subst h
        simp [updateKey, totalItems]
        omega
      · simp [lookupS, hk] at h
        have := ih h
        simp [updateKey, hk, totalItems] at this ⊢
        omega

theorem totalItems_append (d : Store) (k : String) (v : List String) :
    totalItems (d ++ [(k, v)]) = totalItems d + v.length := by
  simp [totalItems]

instance ownsDec (d : Store) (g b : String) : Decidable (owns d g b) :=
  match h : lookupS d g with
  | none =>
      isFalse (fun hw => by
        obtain ⟨l, hl, _⟩ := hw
        rw [h] at hl
        cases hl)
  | some l =>
      if hb : b ∈ l then isTrue ⟨l, h, hb⟩
      else
        isFalse (fun hw => by
          obtain ⟨l', hl', hm⟩ := hw
          rw [h] at hl'
          cases hl'
          exact hb hm)

theorem lookupS_giveEnsure_self (d1 : Store) (receiver : String) :
    lookupS (giveEnsure d1 receiver) receiver =
      some ((lookupS d1 receiver).getD []) := by
  cases h : lookupS d1 receiver with
  | none => simp [giveEnsure, h, lookupS_append_self d1 receiver [] h]
  | some w => simp [giveEnsure, h]

theorem lookupS_giveEnsure_ne (d1 : Store) (receiver u : String)
    (h : u ≠ receiver) :
    lookupS (giveEnsure d1 receiver) u = lookupS d1 u := by
  cases hr : lookupS d1 receiver with
  | none => simp [giveEnsure, hr, lookupS_append_ne d1 receiver u [] h]
  | some w => simp [giveEnsure, hr]

theorem totalItems_giveEnsure (d1 : Store) (receiver : String) :
    totalItems (giveEnsure d1 receiver) = totalItems d1 := by
  cases hr : lookupS d1 receiver with
  | none => simp [giveEnsure, hr, totalItems_append]
  | some w => simp [giveEnsure, hr]

/-- C5: when the giver does not own the ball, `give` sends the error reply and
never writes `db.json`, so every inventory (giver, receiver, everyone else)
is exactly as it was. -/
theorem give_not_owned (data : Store) (ball giver receiver : String)
    (h : ¬ owns data giver ball) :
    (give (.ok data) ball giver receiver).1 = none ∧
    (give (.ok data) ball giver receiver).2 = notOwnedMsg giver ball := by
  cases hl : lookupS data giver with
  | none => simp [give, loadStore, hl]
  | some l =>
      have hb : ball ∉ l := fun hm => h ⟨l, hl, hm⟩
      simp [give, loadStore, hl, hb]

theorem give_not_owned_witness :
    (give (.ok [("A", ["x"])]) "b" "A" "B").1 = none ∧
    (give (.ok [("A", ["x"])]) "b" "A" "B").2 = notOwnedMsg "A" "b" :=
  give_not_owned [("A", ["x"])] "b" "A" "B" (by decide)

/-- C6 (amended): when the giver owns the ball and giver ≠ receiver, the store
written by `give` has the giver down one copy, the receiver up one copy, every
other entry untouched, other balls of the giver and the receiver untouched,
and the total ball count conserved. -/
theorem give_transfers (data : Store) (ball giver receiver : String)
    (hown : owns data giver ball) (hne : giver ≠ receiver) :
    ∃ d3, (give (.ok data) ball giver receiver).1 = some d3 ∧
      countB d3 giver ball + 1 = countB data giver ball ∧
      countB d3 receiver ball = countB data receiver ball + 1 ∧
      (∀ u, u ≠ giver → u ≠ receiver → lookupS d3 u = lookupS data u) ∧
      (∀ b, b ≠ ball → countB d3 giver b = countB data giver b ∧
                        countB d3 receiver b = countB data receiver b) ∧
      totalItems d3 = totalItems data ∧
      (give (.ok data) ball giver receiver).2 = giveOkMsg giver ball receiver := by
  obtain ⟨l, hl, hb⟩ := hown
  have hrg : receiver ≠ giver := fun he => hne he.symm
  -- lookups in the intermediate stores
  have h1g : lookupS (giveRemove data ball giver) giver = some (l.erase ball) :=
    lookupS_updateKey_self data giver _ l hl
  have h1r : lookupS (giveRemove data ball giver) receiver = lookupS data receiver :=
    lookupS_updateKey_ne data giver receiver _ hrg
  have h1u : ∀ u, u ≠ giver → lookupS (giveRemove data ball giver) u = lookupS data u :=
    fun u hu => lookupS_updateKey_ne data giver u _ hu
  have h2g : lookupS (giveEnsure (giveRemove data ball giver) receiver) giver
      = some (l.erase ball) := by
    rw [lookupS_giveEnsure_ne _ _ _ hne]; exact h1g
  have h2r : lookupS (giveEnsure (giveRemove data ball giver) receiver) receiver
      = some ((lookupS data receiver).getD []) := by
    rw [lookupS_giveEnsure_self, h1r]
  have h2u : ∀ u, u ≠ giver → u ≠ receiver →
      lookupS (giveEnsure (giveRemove data ball giver) receiver) u = lookupS data u := by
    intro u hug hur
    rw [lookupS_giveEnsure_ne _ _ _ hur]; exact h1u u hug
  set d3 := giveAppend (giveEnsure (giveRemove data ball giver) receiver) ball receiver with hd3
  have h3g : lookupS d3 giver = some (l.erase ball) := by
    rw [hd3, giveAppend, lookupS_updateKey_ne _ _ _ _ hne]; exact h2g
  have h3r : lookupS d3 receiver = some ((lookupS data receiver).getD [] ++ [ball]) :=
    lookupS_updateKey_self _ receiver _ _ h2r
  have h3u : ∀ u, u ≠ giver → u ≠ receiver → lookupS d3 u = lookupS data u := by
    intro u hug hur
    rw [hd3, giveAppend, lookupS_updateKey_ne _ _ _ _ hur]; exact h2u u hug hur
  -- totals
  have hcount1 : 0 < l.count ball := List.count_pos_iff.mpr hb
  have hlen : (l.erase ball).length + 1 = l.length := by
    have := List.length_erase_of_mem hb
    have hlpos : 0 < l.length := List.length_pos.mpr (List.ne_nil_of_mem hb)
    omega
  have ht1 : totalItems (giveRemove data ball giver) + l.length
      = totalItems data + (l.erase ball).length :=
    totalItems_updateKey data giver _ l hl
  have ht2 : totalItems (giveEnsure (giveRemove data ball giver) receiver)
      = totalItems (giveRemove data ball giver) :=
    totalItems_giveEnsure _ receiver
  have ht3 : totalItems d3 + ((lookupS data receiver).getD []).length
      = totalItems (giveEnsure (giveRemove data ball giver) receiver)
        + ((lookupS data receiver).getD [] ++ [ball]).length :=
    totalItems_updateKey _ receiver _ _ h2r
  refine ⟨d3, ?_, ?_, ?_, h3u, ?_, ?_, ?_⟩
  · simp [give, loadStore, hl, hb, hd3]
  · have : countB d3 giver ball = (l.erase ball).count ball := by
      simp [countB, h3g]
    rw [this, List.count_erase_self]
    simp [countB, hl]
    omega
  · simp [countB, h3r, hl]
  · intro b hbne
    constructor
    · simp [countB, h3g, hl, List.count_erase_of_ne hbne]
    · simp [countB, h3r, List.count_singleton]
      intro he
      exact absurd he.symm hbne
  · rw [List.length_append] at ht3
    simp at ht3
    omega
  · simp [give, loadStore, hl, hb]

theorem give_transfers_witness :
    ∃ d3, (give (.ok [("A", ["x", "b"]), ("C", ["b"])]) "b" "A" "B").1 = some d3 ∧
      countB d3 "A" "b" + 1 = countB [("A", ["x", "b"]), ("C", ["b"])] "A" "b" ∧
      countB d3 "B" "b" = countB [("A", ["x", "b"]), ("C", ["b"])] "B" "b" + 1 ∧
      (∀ u, u ≠ "A" → u ≠ "B" → lookupS d3 u = lookupS [("A", ["x", "b"]), ("C", ["b"])] u) ∧
      (∀ b, b ≠ "b" → countB d3 "A" b = countB [("A", ["x", "b"]), ("C", ["b"])] "A" b ∧
            countB d3 "B" b = countB [("A", ["x", "b"]), ("C", ["b"])] "B" b) ∧
      totalItems d3 = totalItems [("A", ["x", "b"]), ("C", ["b"])] ∧
      (give (.ok [("A", ["x", "b"]), ("C", ["b"])]) "b" "A" "B").2 = giveOkMsg "A" "b" "B" :=
  give_transfers [("A", ["x", "b"]), ("C", ["b"])] "b" "A" "B"
    ⟨["x", "b"], by decide, by decide⟩ (by decide)

/-- C6 counterexample: with giver = receiver (`give "b" "u" "u"` on the store
`{u: [b]}`), the written store equals the original store, so the giver\x27s
count is not decreased by one as the claim demands. -/
theorem give_self_counterexample :
    (give (.ok [("u", ["b"])]) "b" "u" "u").1 = some [("u", ["b"])] ∧
    countB [("u", ["b"])] "u" "b" = 1 ∧
    ¬ (countB [("u", ["b"])] "u" "b" + 1 = countB [("u", ["b"])] "u" "b") := by
  refine ⟨?_, by decide, by decide⟩
  decide

/-! Embedding of `ProntoUploader.create_message` (src/main.py:80-133) together
with the `wait_until_ready` readiness poll (src/main.py:63-78) that its
soft-failure branch invokes.  The HTTP layer is modelled by `server : Nat →
Resp`, the response to the POST of each 1-based loop attempt, and
`gets : Nat → Nat → NormResp`, the response to the j-th readiness GET issued
during the poll that follows the i-th soft-failing POST. -/

/-- Server response to one POST of `message.create`. -/
structure Resp where
  status : Nat
  body : String
  msgId : Nat
deriving DecidableEq

/-- Whether `pat` occurs at the head of `s` (helper for substring tests). -/
def startsWithChars : List Char → List Char → Bool
  | [], _ => true
  | _ :: _, [] => false
  | p :: ps, c :: cs => p == c && startsWithChars ps cs

/-- Python `pat in s` on strings, over the character lists. -/
def hasSubChars (pat : List Char) : List Char → Bool
  | [] => startsWithChars pat []
  | c :: cs => startsWithChars pat (c :: cs) || hasSubChars pat cs

/-- The soft-failure test of the retry loop:
`r.status_code == 400 and "INVALID_ATTACHMENT_FILE_KEY" in r.text`. -/
def softFail (r : Resp) : Bool :=
  r.status == 400 && hasSubChars "INVALID_ATTACHMENT_FILE_KEY".toList r.body.toList

/-- Statuses on which `requests.Response.raise_for_status` raises. -/
def raisesStatus (s : Nat) : Prop := 400 ≤ s ∧ s < 600

instance (s : Nat) : Decidable (raisesStatus s) := by
  unfold raisesStatus; infer_instance

/-- The normalized-file metadata dict passed as `meta`. -/
structure MediaMeta where
  name : String
  filesize : Nat
  mimetype : String
  width : Nat
  height : Nat
deriving DecidableEq

/-- The `meta` parameter: its Python default is the string `""`, so the value
is either that default or a metadata dict. -/
inductive MetaParam where
  | absent
  | present (m : MediaMeta)
deriving DecidableEq

/-- `payload_stub = {"uuid": str(uuid.uuid4()), "bubble_id": self.bubble_id}`,
built once per `create_message` call, before the retry loop. -/
structure Stub where
  uuid : String
  bubbleId : Nat
deriving DecidableEq

/-- One element of the `messagemedia` list. -/
structure MediaAttachment where
  mediatype : String
  title : String
  filesize : Nat
  mimetype : String
  width : Nat
  height : Nat
  uuidKey : String
deriving DecidableEq

/-- A `message.create` request body. -/
structure Payload where
  uuid : String
  bubbleId : Nat
  message : String
  messagemedia : Option (List MediaAttachment)
deriving DecidableEq

/-- The payload built inside the retry loop on every attempt. -/
def mkMediaPayload (stub : Stub) (text mediaType normKey : String)
    (m : MediaMeta) : Payload :=
  { uuid := stub.uuid, bubbleId := stub.bubbleId, message := text,
    messagemedia := some [{ mediatype := mediaType, title := m.name,
                            filesize := m.filesize, mimetype := m.mimetype,
                            width := m.width, height := m.height,
                            uuidKey := normKey }] }

/-- The payload of the text-only branch (no `messagemedia` key). -/
def mkTextPayload (stub : Stub) (text : String) : Payload :=
  { uuid := stub.uuid, bubbleId := stub.bubbleId, message := text,
    messagemedia := none }

/-- Outcomes of `create_message` other than a message id: an
`requests.HTTPError` from `raise_for_status`, or the final
`RuntimeError("Message creation failed after retries")`. -/
inductive CreateErr where
  | httpError (status : Nat)
  | exhausted
deriving DecidableEq

/-- Server response to one readiness GET of `wait_until_ready`: HTTP status
and whether the JSON `data` object contains a `normalized` entry. -/
structure NormResp where
  status : Nat
  normalized : Bool
deriving DecidableEq

/-- Embedding of `wait_until_ready(orig_key, tries, delay)`: each attempt
issues a GET and calls `raise_for_status` on it — a 4xx/5xx status raises
HTTPError out of the whole call — then returns early once a normalized
variant is reported; exhausting the bound only logs a warning and returns
normally.  `getr` is the response to the GET of each 1-based attempt,
`fuel` the number of attempts left. -/
def wait_until_ready (getr : Nat → NormResp) : Nat → Nat → Except CreateErr Unit
  | 0, _ => .ok ()
  | fuel + 1, attempt =>
      let r := getr attempt
      if raisesStatus r.status then .error (.httpError r.status)
      else if r.normalized then .ok ()
      else wait_until_ready getr fuel (attempt + 1)

/-- The `for attempt in range(1, tries + 1)` retry loop of `create_message`:
`fuel` is the number of attempts left, `attempt` the 1-based loop counter.
Besides the result it returns the payloads posted, in order.  The
soft-failure branch runs `self.wait_until_ready(orig_key, tries=3,
delay=0.7)` before continuing; an HTTPError raised by one of that poll\x27s
GETs propagates and ends the loop early. -/
def createAttempts (server : Nat → Resp) (gets : Nat → Nat → NormResp) (stub : Stub)
    (text mediaType normKey : String) (m : MediaMeta) :
    Nat → Nat → Except CreateErr Nat × List Payload
  | 0, _ => (.error .exhausted, [])
  | fuel + 1, attempt =>
      let payload := mkMediaPayload stub text mediaType normKey m
      let r := server attempt
      if softFail r then
        match wait_until_ready (gets attempt) 3 1 with
        | .error e => (.error e, [payload])
        | .ok _ =>
            let rest := createAttempts server gets stub text mediaType normKey m
              fuel (attempt + 1)
            (rest.1, payload :: rest.2)
      else if raisesStatus r.status then
        (.error (.httpError r.status), [payload])
      else
        (.ok r.msgId, [payload])

/-- The `else` branch of `create_message`: one text-only POST,
`raise_for_status`, no retry. -/
def createTextOnly (server : Nat → Resp) (stub : Stub) (text : String) :
    Except CreateErr Nat × List Payload :=
  let payload := mkTextPayload stub text
  let r := server 1
  if raisesStatus r.status then (.error (.httpError r.status), [payload])
  else (.ok r.msgId, [payload])

/-- Embedding of `create_message`; `uuidVal` is the value of
`str(uuid.uuid4())` drawn once at the top of the call.  The branch condition
is `orig_key != "" and norm_key != "" and meta != ""`; a dict `meta` always
differs from `""`. -/
def create_message (server : Nat → Resp) (gets : Nat → Nat → NormResp)
    (uuidVal : String) (bubbleId : Nat)
    (origKey normKey : String) (meta : MetaParam) (text mediaType : String)
    (tries : Nat) : Except CreateErr Nat × List Payload :=
  let stub : Stub := { uuid := uuidVal, bubbleId := bubbleId }
  match meta with
  | .present m =>
      if origKey ≠ "" ∧ normKey ≠ "" then
        createAttempts server gets stub text mediaType normKey m tries 1
      else createTextOnly server stub text
  | .absent => createTextOnly server stub text

theorem createAttempts_all_soft (server : Nat → Resp) (gets : Nat → Nat → NormResp)
    (stub : Stub) (text mediaType normKey : String) (m : MediaMeta) :
    ∀ fuel attempt,
      (∀ i, attempt ≤ i → i < attempt + fuel → softFail (server i) = true) →
      (∀ i, attempt ≤ i → i < attempt + fuel →
        wait_until_ready (gets i) 3 1 = .ok ()) →
      createAttempts server gets stub text mediaType normKey m fuel attempt =
        (.error .exhausted,
         List.replicate fuel (mkMediaPayload stub text mediaType normKey m)) := by
  intro fuel
  induction fuel with
  | zero => intro attempt h hw; simp [createAttempts]
  | succ n ih =>
      intro attempt h hw
      have hs : softFail (server attempt) = true := h attempt (le_refl _) (by omega)
      have hwa : wait_until_ready (gets attempt) 3 1 = .ok () :=
        hw attempt (le_refl _) (by omega)
      have hrec := ih (attempt + 1) (fun i h1 h2 => h i (by omega) (by omega))
        (fun i h1 h2 => hw i (by omega) (by omega))
      simp [createAttempts, hs, hwa, hrec, List.replicate_succ]

theorem createAttempts_success (server : Nat → Resp) (gets : Nat → Nat → NormResp)
    (stub : Stub) (text mediaType normKey : String) (m : MediaMeta) :
    ∀ fuel attempt k,
      attempt ≤ k → k < attempt + fuel →
      (∀ i, attempt ≤ i → i < k → softFail (server i) = true) →
      (∀ i, attempt ≤ i → i < k → wait_until_ready (gets i) 3 1 = .ok ()) →
      softFail (server k) = false →
      ¬ raisesStatus (server k).status →
      createAttempts server gets stub text mediaType normKey m fuel attempt =
        (.ok (server k).msgId,
         List.replicate (k - attempt + 1) (mkMediaPayload stub text mediaType normKey m)) := by
  intro fuel
  induction fuel with
  | zero => intro attempt k h1 h2 _ _ _ _; omega
  | succ n ih =>
      intro attempt k h1 h2 hsoft hwait hk hstat
      by_cases he : k = attempt
      · subst he
        simp [createAttempts, hk, hstat]
      · have hs : softFail (server attempt) = true := hsoft attempt (le_refl _) (by omega)
        have hwa : wait_until_ready (gets attempt) 3 1 = .ok () :=
          hwait attempt (le_refl _) (by omega)
        have hrec := ih (attempt + 1) k (by omega) (by omega)
          (fun i hi1 hi2 => hsoft i (by omega) hi2)
          (fun i hi1 hi2 => hwait i (by omega) hi2) hk hstat
        have harith : k - attempt + 1 = (k - (attempt + 1) + 1) + 1 := by omega
        simp [createAttempts, hs, hwa, hrec, harith, List.replicate_succ]

theorem createAttempts_get_abort (server : Nat → Resp) (gets : Nat → Nat → NormResp)
    (stub : Stub) (text mediaType normKey : String) (m : MediaMeta) :
    ∀ fuel attempt j e,
      attempt ≤ j → j < attempt + fuel →
      (∀ i, attempt ≤ i → i < j → softFail (server i) = true) →
      (∀ i, attempt ≤ i → i < j → wait_until_ready (gets i) 3 1 = .ok ()) →
      softFail (server j) = true →
      wait_until_ready (gets j) 3 1 = .error e →
      createAttempts server gets stub text mediaType normKey m fuel attempt =
        (.error e,
         List.replicate (j - attempt + 1) (mkMediaPayload stub text mediaType normKey m)) := by
  intro fuel
  induction fuel with
  | zero => intro attempt j e h1 h2 _ _ _ _; omega
  | succ n ih =>
      intro attempt j e h1 h2 hsoft hwait hj hjw
      by_cases he : j = attempt
      · subst he
        simp [createAttempts, hj, hjw]
      · have hs : softFail (server attempt) = true := hsoft attempt (le_refl _) (by omega)
        have hwa : wait_until_ready (gets attempt) 3 1 = .ok () :=
          hwait attempt (le_refl _) (by omega)
        have hrec := ih (attempt + 1) j e (by omega) (by omega)
          (fun i hi1 hi2 => hsoft i (by omega) hi2)
          (fun i hi1 hi2 => hwait i (by omega) hi2) hj hjw
        have harith : j - attempt + 1 = (j - (attempt + 1) + 1) + 1 := by omega
        simp [createAttempts, hs, hwa, hrec, harith, List.replicate_succ]

/-- C1 counterexample: with all media fields present and a server whose every
POST soft-fails with the `INVALID_ATTACHMENT_FILE_KEY` condition, a readiness
GET of the in-loop `wait_until_ready` poll that fails with status 500 makes
`create_message` raise that HTTPError after exactly one POST — not the
exhaustion error after `tries = 3` POSTs. -/
theorem create_message_get_abort_counterexample :
    (create_message (fun _ => ⟨400, "INVALID_ATTACHMENT_FILE_KEY", 0⟩)
        (fun _ _ => ⟨500, false⟩) "uuid-1" 4321430 "orig" "norm"
        (.present ⟨"img.png", 10, "image/png", 4, 5⟩) "hello" "PHOTO" 3).1
      = .error (.httpError 500) ∧
    (create_message (fun _ => ⟨400, "INVALID_ATTACHMENT_FILE_KEY", 0⟩)
        (fun _ _ => ⟨500, false⟩) "uuid-1" 4321430 "orig" "norm"
        (.present ⟨"img.png", 10, "image/png", 4, 5⟩) "hello" "PHOTO" 3).2.length
      = 1 ∧
    softFail ⟨400, "INVALID_ATTACHMENT_FILE_KEY", 0⟩ = true := by
  refine ⟨rfl, by decide, by decide⟩

/-- C1 (amended): with all media fields present, (a) when every POST
soft-fails with the `INVALID_ATTACHMENT_FILE_KEY` condition and every
readiness poll triggered by those soft failures returns without raising,
`create_message` raises the exhaustion error after exactly `tries` POSTs —
never fewer, never more; (b) when attempt `k ≤ tries` is the first POST that
does not soft-fail and its status passes `raise_for_status`, the call returns
that message id after exactly `k` POSTs; (c) when the readiness poll after
the `j`-th soft-failing POST raises an HTTPError, the call aborts with that
error after exactly `j` POSTs — fewer than `tries` when `j < tries`. -/
theorem create_message_retry_contract (server : Nat → Resp)
    (gets : Nat → Nat → NormResp) (uuidVal : String)
    (bubbleId : Nat) (origKey normKey : String) (m : MediaMeta)
    (text mediaType : String) (tries : Nat)
    (horig : origKey ≠ "") (hnorm : normKey ≠ "") :
    ((∀ i, 1 ≤ i → i ≤ tries → softFail (server i) = true) →
     (∀ i, 1 ≤ i → i ≤ tries → wait_until_ready (gets i) 3 1 = .ok ()) →
      (create_message server gets uuidVal bubbleId origKey normKey (.present m)
          text mediaType tries).1 = .error .exhausted ∧
      (create_message server gets uuidVal bubbleId origKey normKey (.present m)
          text mediaType tries).2.length = tries) ∧
    (∀ k, 1 ≤ k → k ≤ tries →
      (∀ i, 1 ≤ i → i < k → softFail (server i) = true) →
      (∀ i, 1 ≤ i → i < k → wait_until_ready (gets i) 3 1 = .ok ()) →
      softFail (server k) = false →
      ¬ raisesStatus (server k).status →
      (create_message server gets uuidVal bubbleId origKey normKey (.present m)
          text mediaType tries).1 = .ok (server k).msgId ∧
      (create_message server gets uuidVal bubbleId origKey normKey (.present m)
          text mediaType tries).2.length = k) ∧
    (∀ j e, 1 ≤ j → j ≤ tries →
      (∀ i, 1 ≤ i → i < j → softFail (server i) = true) →
      (∀ i, 1 ≤ i → i < j → wait_until_ready (gets i) 3 1 = .ok ()) →
      softFail (server j) = true →
      wait_until_ready (gets j) 3 1 = .error e →
      (create_message server gets uuidVal bubbleId origKey normKey (.present m)
          text mediaType tries).1 = .error e ∧
      (create_message server gets uuidVal bubbleId origKey normKey (.present m)
          text mediaType tries).2.length = j) := by
  have hcond : origKey ≠ "" ∧ normKey ≠ "" := ⟨horig, hnorm⟩
  refine ⟨?_, ?_, ?_⟩
  · intro hall hwall
    have h := createAttempts_all_soft server gets ⟨uuidVal, bubbleId⟩ text mediaType
      normKey m tries 1 (fun i h1 h2 => hall i h1 (by omega))
      (fun i h1 h2 => hwall i h1 (by omega))
    simp [create_message, hcond, h]
  · intro k hk1 hk2 hbefore hwbefore hknot hstat
    have h := createAttempts_success server gets ⟨uuidVal, bubbleId⟩ text mediaType
      normKey m tries 1 k hk1 (by omega) hbefore hwbefore hknot hstat
    simp [create_message, hcond, h]
    omega
  · intro j e hj1 hj2 hbefore hwbefore hjsoft hjw
    have h := createAttempts_get_abort server gets ⟨uuidVal, bubbleId⟩ text mediaType
      normKey m tries 1 j e hj1 (by omega) hbefore hwbefore hjsoft hjw
    simp [create_message, hcond, h]
    omega

theorem create_message_retry_contract_witness :
    (create_message (fun _ => ⟨400, "INVALID_ATTACHMENT_FILE_KEY", 0⟩)
        (fun _ _ => ⟨200, true⟩) "uuid-1" 4321430 "orig" "norm"
        (.present ⟨"img.png", 10, "image/png", 4, 5⟩)
        "hello" "PHOTO" 3).1 = .error .exhausted ∧
    (create_message (fun _ => ⟨400, "INVALID_ATTACHMENT_FILE_KEY", 0⟩)
        (fun _ _ => ⟨200, true⟩) "uuid-1" 4321430 "orig" "norm"
        (.present ⟨"img.png", 10, "image/png", 4, 5⟩)
        "hello" "PHOTO" 3).2.length = 3 :=
  (create_message_retry_contract (fun _ => ⟨400, "INVALID_ATTACHMENT_FILE_KEY", 0⟩)
      (fun _ _ => ⟨200, true⟩) "uuid-1" 4321430 "orig" "norm"
      ⟨"img.png", 10, "image/png", 4, 5⟩
      "hello" "PHOTO" 3 (by decide) (by decide)).1
    (fun i h1 h2 => by decide) (fun i h1 h2 => rfl)

theorem createTextOnly_payloads (server : Nat → Resp) (stub : Stub) (text : String) :
    (createTextOnly server stub text).2 = [mkTextPayload stub text] := by
  by_cases h : raisesStatus (server 1).status <;> simp [createTextOnly, h]

theorem createAttempts_uuid (server : Nat → Resp) (gets : Nat → Nat → NormResp)
    (stub : Stub) (text mediaType normKey : String) (m : MediaMeta) :
    ∀ fuel attempt p,
      p ∈ (createAttempts server gets stub text mediaType normKey m fuel attempt).2 →
      p.uuid = stub.uuid := by
  intro fuel
  induction fuel with
  | zero => intro attempt p hp; simp [createAttempts] at hp
  | succ n ih =>
      intro attempt p hp
      by_cases hs : softFail (server attempt)
      · cases hw : wait_until_ready (gets attempt) 3 1 with
        | error e =>
            simp [createAttempts, hs, hw] at hp
            rw [hp]; rfl
        | ok u =>
            simp [createAttempts, hs, hw] at hp
            cases hp with
            | inl h => rw [h]; rfl
            | inr h => exact ih (attempt + 1) p h
      · by_cases hst : raisesStatus (server attempt).status <;>
          simp [createAttempts, hs, hst] at hp <;> rw [hp] <;> rfl

/-- C2: every payload posted by a single `create_message` call, across all
retry attempts of both branches, carries the one correlation UUID generated
before the retry loop. -/
theorem create_message_same_uuid (server : Nat → Resp) (gets : Nat → Nat → NormResp)
    (uuidVal : String)
    (bubbleId : Nat) (origKey normKey : String) (meta : MetaParam)
    (text mediaType : String) (tries : Nat) :
    ∀ p ∈ (create_message server gets uuidVal bubbleId origKey normKey meta
             text mediaType tries).2, p.uuid = uuidVal := by
  intro p hp
  cases meta with
  | present m =>
      by_cases hc : origKey ≠ "" ∧ normKey ≠ ""
      · simp only [create_message, if_pos hc] at hp
        exact createAttempts_uuid server gets ⟨uuidVal, bubbleId⟩ text mediaType
          normKey m tries 1 p hp
      · simp only [create_message, if_neg hc, createTextOnly_payloads,
          List.mem_singleton] at hp
        rw [hp]; rfl
  | absent =>
      simp only [create_message, createTextOnly_payloads, List.mem_singleton] at hp
      rw [hp]; rfl

theorem create_message_same_uuid_witness :
    (mkMediaPayload ⟨"uuid-1", 4321430⟩ "hello" "PHOTO" "norm"
        ⟨"img.png", 10, "image/png", 4, 5⟩).uuid = "uuid-1" :=
  create_message_same_uuid (fun _ => ⟨400, "INVALID_ATTACHMENT_FILE_KEY", 0⟩)
    (fun _ _ => ⟨200, true⟩)
    "uuid-1" 4321430 "orig" "norm" (.present ⟨"img.png", 10, "image/png", 4, 5⟩)
    "hello" "PHOTO" 3
    (mkMediaPayload ⟨"uuid-1", 4321430⟩ "hello" "PHOTO" "norm"
      ⟨"img.png", 10, "image/png", 4, 5⟩)
    (by decide)

/-! Embedding of `fetch_latest_message` (src/main.py:181-207) and the command
routing of `monitor_messages` (src/main.py:391-423). -/

/-- A message object of a `bubble.history` response. -/
structure PMsg where
  id : String
  message : String
  userId : String
  firstname : String
  lastname : String
deriving DecidableEq

/-- A `bubble.history` response: HTTP status and the `messages` list,
most recent first. -/
structure HistResp where
  status : Nat
  messages : List PMsg
deriving DecidableEq

/-- Python runtime errors that the embedded functions can raise. -/
inductive PyErr where
  | indexError
  | nameError
deriving DecidableEq

/-- Embedding of `fetch_latest_message`: from the server response and the
current `last_message_id` cursor, compute the new cursor and the returned
`[message, user id, full name]` triple.  On a 200 response with an empty
`messages` list the Python code evaluates `messages[0]` and raises
IndexError. -/
def fetch_latest_message (resp : HistResp) (cursor : String) :
    Except PyErr (String × (String × String × String)) :=
  if resp.status = 200 then
    match resp.messages with
    | [] => .error .indexError
    | m :: _ =>
        if m.id ≠ cursor then
          .ok (m.id, (m.message, m.userId, m.firstname ++ " " ++ m.lastname))
        else .ok (cursor, ("", "", ""))
  else .ok (cursor, ("", "", ""))

/-- Which of the four command handlers of `monitor_messages` fire on a given
message text: `text == "!ball"`, `text == "!list"`, `"!give" in text`,
`"!view" in text`. -/
structure Fired where
  ball : Bool
  list : Bool
  give : Bool
  view : Bool
deriving DecidableEq

/-- The routing tests applied by one iteration of `monitor_messages`. -/
def dispatchFired (text : String) : Fired :=
  { ball := text == "!ball"
  , list := text == "!list"
  , give := hasSubChars "!give".toList text.toList
  , view := hasSubChars "!view".toList text.toList }

/-- C3: on a 200 fetch with a head message, the new cursor equals the head id
(so the cursor changes exactly when the fetched id differs from the stored
one), and fetching the same id again yields the empty sentinel on which no
`monitor_messages` handler fires. -/
theorem poll_cursor_contract (resp1 resp2 : HistResp) (cursor : String)
    (m1 m2 : PMsg) (r1 r2 : List PMsg)
    (h1s : resp1.status = 200) (h1m : resp1.messages = m1 :: r1)
    (h2s : resp2.status = 200) (h2m : resp2.messages = m2 :: r2)
    (hid : m2.id = m1.id) :
    (∃ t1, fetch_latest_message resp1 cursor = .ok (m1.id, t1)) ∧
    (∀ c1 t1, fetch_latest_message resp1 cursor = .ok (c1, t1) →
      (c1 ≠ cursor ↔ m1.id ≠ cursor)) ∧
    fetch_latest_message resp2 m1.id = .ok (m1.id, ("", "", "")) ∧
    dispatchFired "" = ⟨false, false, false, false⟩ := by
  have hsecond : fetch_latest_message resp2 m1.id = .ok (m1.id, ("", "", "")) := by
    simp [fetch_latest_message, h2s, h2m, hid]
  by_cases hc : m1.id = cursor
  · have hfirst : fetch_latest_message resp1 cursor = .ok (cursor, ("", "", "")) := by
      simp [fetch_latest_message, h1s, h1m, hc]
    refine ⟨⟨("", "", ""), by rw [hfirst, hc]⟩, ?_, hsecond, by decide⟩
    intro c1 t1 h
    rw [hfirst] at h
    cases h
    simp [hc]
  · have hfirst : fetch_latest_message resp1 cursor
        = .ok (m1.id, (m1.message, m1.userId, m1.firstname ++ " " ++ m1.lastname)) := by
      simp [fetch_latest_message, h1s, h1m, hc]
    refine ⟨⟨_, hfirst⟩, ?_, hsecond, by decide⟩
    intro c1 t1 h
    rw [hfirst] at h
    cases h
    simp [hc]

theorem poll_cursor_contract_witness :
    (∃ t1, fetch_latest_message ⟨200, [⟨"9", "!ball", "1", "A", "B"⟩]⟩ ""
      = .ok ("9", t1)) ∧
    (∀ c1 t1, fetch_latest_message ⟨200, [⟨"9", "!ball", "1", "A", "B"⟩]⟩ ""
      = .ok (c1, t1) → (c1 ≠ "" ↔ ("9" : String) ≠ "")) ∧
    fetch_latest_message ⟨200, [⟨"9", "!ball", "1", "A", "B"⟩]⟩ "9"
      = .ok ("9", ("", "", "")) ∧
    dispatchFired "" = ⟨false, false, false, false⟩ :=
  poll_cursor_contract ⟨200, [⟨"9", "!ball", "1", "A", "B"⟩]⟩
    ⟨200, [⟨"9", "!ball", "1", "A", "B"⟩]⟩ "" ⟨"9", "!ball", "1", "A", "B"⟩
    ⟨"9", "!ball", "1", "A", "B"⟩ [] [] rfl rfl rfl rfl rfl

/-- C4, evaluated at the failing input: a 200 response whose `messages` list
is empty makes `fetch_latest_message` raise IndexError (the code indexes
`messages[0]` unconditionally), while a failed fetch (non-200) does return
the sentinel with the cursor unchanged. -/
theorem fetch_empty_messages_raises :
    fetch_latest_message ⟨200, []⟩ "prev" = .error .indexError ∧
    fetch_latest_message ⟨500, [⟨"9", "hi", "1", "A", "B"⟩]⟩ "prev"
      = .ok ("prev", ("", "", "")) := by
  constructor <;> rfl

/-! Embedding of the catalog (balls.csv) and of `view` (src/main.py:334-378).
Python string primitives that the code applies to catalog data —
`str.lower()`, `str.split(" ")`, slicing — are modelled over the character
list of the string (`String.data`); `str.lower()` is per-character ASCII
lowering, which is what it does on the ASCII catalog names. -/

/-- Python `s.lower()` (per-character). -/
def pyLower (s : String) : String := ⟨s.data.map Char.toLower⟩

/-- Python `s.split(" ")` on the character list: split at every single space,
keeping empty fields. -/
def splitSpaceChars : List Char → List (List Char)
  | [] => [[]]
  | c :: rest =>
      match splitSpaceChars rest with
      | [] => [[c]]
      | h :: t => if c = ' ' then [] :: h :: t else (c :: h) :: t

/-- Python `s.split(" ")`. -/
def pySplitSpace (s : String) : List String := (splitSpaceChars s.data).map (fun l => ⟨l⟩)

/-- Python `s[n:]`. -/
def pyDrop (n : Nat) (s : String) : String := ⟨s.data.drop n⟩

/-- Python `len(s)`. -/
def pyLen (s : String) : Nat := s.data.length

/-- One data row of balls.csv as `view` reads it: `parts[0]` main name,
`parts[1]` image link, `parts[2]` rarity, `parts[3]` space-separated
alternate names. -/
structure CatRow where
  main : String
  link : String
  rarity : String
  altsField : String
deriving DecidableEq

/-- `[n.lower() for n in [main_name] + alternates]` for one row. -/
def rowNames (row : CatRow) : List String :=
  (row.main :: pySplitSpace row.altsField).map pyLower

/-- The name-resolution loop of `view`: the first row, in file order, whose
main name or one of its alternates equals the query case-insensitively;
yields `(official_name, image_link)`. -/
def resolveBall : List CatRow → String → Option (String × String)
  | [], _ => none
  | row :: rest, ball =>
      if pyLower ball ∈ rowNames row then some (row.main, row.link)
      else resolveBall rest ball

/-- `giver_id in data and official_name.lower() in [x.lower() for x in
data[giver_id]]`. -/
def ownsCase (data : Store) (user official : String) : Prop :=
  ∃ l, lookupS data user = some l ∧ pyLower official ∈ l.map pyLower

instance ownsCaseDec (data : Store) (user official : String) :
    Decidable (ownsCase data user official) :=
  match h : lookupS data user with
  | none =>
      isFalse (fun hw => by
        obtain ⟨l, hl, _⟩ := hw
        rw [h] at hl
        cases hl)
  | some l =>
      if hb : pyLower official ∈ l.map pyLower then isTrue ⟨l, h, hb⟩
      else
        isFalse (fun hw => by
          obtain ⟨l', hl', hm⟩ := hw
          rw [h] at hl'
          cases hl'
          exact hb hm)

/-- The observable outcome of `view`: each constructor stands for the reply
the function sends (and returns). -/
inductive ViewOut where
  | nameNotFound
  | dbError
  | notOwned (official : String)
  | showImage (path : String)
deriving DecidableEq

/-- Embedding of `view(ball, user_id)`: resolve the name against the catalog,
then (only on a successful resolution) read `db.json` — a failed read replies
with a database error — then check case-insensitive ownership of the official
name and show `"balls/" + link`. -/
def view (catalog : List CatRow) (read : Except Unit Store) (ball user : String) :
    ViewOut :=
  match resolveBall catalog ball with
  | none => .nameNotFound
  | some (official, link) =>
      match read with
      | .error _ => .dbError
      | .ok data =>
          if ownsCase data user official then .showImage ("balls/" ++ link)
          else .notOwned official

theorem resolveBall_of_mem (pre : List CatRow) (row : CatRow) (post : List CatRow)
    (name : String) (hmem : pyLower name ∈ rowNames row)
    (hpre : ∀ r ∈ pre, pyLower name ∉ rowNames r) :
    resolveBall (pre ++ row :: post) name = some (row.main, row.link) := by
  induction pre with
  | nil => simp [resolveBall, hmem]
  | cons r rs ih =>
      have hr : pyLower name ∉ rowNames r := hpre r (by simp)
      simp only [List.cons_append, resolveBall, if_neg hr]
      exact ih (fun x hx => hpre x (by simp [hx]))

/-- C7: in a catalog where neither the alias nor the row\x27s main name occurs
in any earlier row, `view` resolves the alias and the main name to the same
canonical entry and returns identical results: the same reply for every
database read, the catalog image when the user owns the canonical name, the
not-owned reply when they do not — and, in general, the unknown-name reply
whenever no catalog row matches a query. -/
theorem view_alias_canonical (pre : List CatRow) (row : CatRow) (post : List CatRow)
    (aname user : String)
    (halias : pyLower aname ∈ rowNames row)
    (hpre : ∀ r ∈ pre, pyLower aname ∉ rowNames r ∧ pyLower row.main ∉ rowNames r) :
    (∀ read, view (pre ++ row :: post) read aname user
           = view (pre ++ row :: post) read row.main user) ∧
    (∀ data : Store, ownsCase data user row.main →
       view (pre ++ row :: post) (.ok data) aname user
         = .showImage ("balls/" ++ row.link)) ∧
    (∀ data : Store, ¬ ownsCase data user row.main →
       view (pre ++ row :: post) (.ok data) aname user = .notOwned row.main) ∧
    (∀ q u read, resolveBall (pre ++ row :: post) q = none →
       view (pre ++ row :: post) read q u = .nameNotFound) := by
  have hmain : pyLower row.main ∈ rowNames row := by simp [rowNames]
  have hres1 : resolveBall (pre ++ row :: post) aname = some (row.main, row.link) :=
    resolveBall_of_mem pre row post aname halias (fun r hr => (hpre r hr).1)
  have hres2 : resolveBall (pre ++ row :: post) row.main = some (row.main, row.link) :=
    resolveBall_of_mem pre row post row.main hmain (fun r hr => (hpre r hr).2)
  refine ⟨?_, ?_, ?_, ?_⟩
  · intro read
    simp [view, hres1, hres2]
  · intro data h
    simp [view, hres1, h]
  · intro data h
    simp [view, hres1, h]
  · intro q u read h
    simp [view, h]

theorem view_alias_canonical_witness :
    view ([⟨"Mordor", "m.png", "rare", "mord"⟩]
        ++ ⟨"Gondor", "g.png", "common", "minastirith whitecity"⟩ :: [])
      (.ok [("5", ["Gondor"])]) "WhiteCity" "5" = .showImage "balls/g.png" :=
  (view_alias_canonical [⟨"Mordor", "m.png", "rare", "mord"⟩]
      ⟨"Gondor", "g.png", "common", "minastirith whitecity"⟩ [] "WhiteCity" "5"
      (by decide) (by decide)).2.1
    [("5", ["Gondor"])] ⟨["Gondor"], rfl, by decide⟩

/-! Embedding of the `!list` handler of `monitor_messages`
(src/main.py:398-416) and of the catch-credit block of `ballspawn`
(src/main.py:244-256). -/

/-- `Counter(balls).items()`: counts grouped by ball name, first-occurrence
order preserved. -/
def counterItems (l : List String) : List (String × Nat) :=
  l.foldl (fun acc b =>
    if acc.any (fun p => p.1 == b) then
      acc.map (fun p => if p.1 == b then (p.1, p.2 + 1) else p)
    else acc ++ [(b, 1)]) []

/-- The reply text built by the `!list` handler. -/
def renderList (userId : String) (items : List (String × Nat)) : String :=
  "<@" ++ userId ++ "> has caught the following balls:\n" ++
    String.join (items.enum.map (fun p =>
      toString (p.1 + 1) ++ ". " ++ p.2.1 ++ " (" ++ toString p.2.2 ++ ")\n"))

/-- Embedding of the `!list` handler body.  `prevData` is the value the
loop-local variable `data` still holds from an earlier successful read in the
same `monitor_messages` loop, if any; when `json.load` raises and no such
binding exists, the subsequent `data.get(...)` raises NameError, which
escapes the loop. -/
def listHandler (prevData : Option Store) (read : Except Unit Store)
    (userId : String) : Except PyErr String :=
  match read, prevData with
  | .ok d, _ => .ok (renderList userId (counterItems ((lookupS d userId).getD [])))
  | .error _, some d =>
      .ok (renderList userId (counterItems ((lookupS d userId).getD [])))
  | .error _, none => .error .nameError

/-- The catch-credit block of `ballspawn`: read `db.json` treating a failed
read as empty, ensure the catcher\x27s key exists, append the caught name,
and return the store written back. -/
def catchCredit (read : Except Unit Store) (userId name : String) : Store :=
  giveAppend (giveEnsure (loadStore read) userId) name userId

/-- C8 counterexample: a failed store read is fatal to the `!list` handler
(NameError from the unbound `data`) when no earlier read succeeded, and
`view` replies with a database error instead of treating the store as
empty — treating it as empty would reply not-owned. -/
theorem store_read_error_counterexample :
    listHandler none (.error ()) "5302419" = .error .nameError ∧
    view [⟨"Gondor", "g.png", "common", "minastirith whitecity"⟩] (.error ())
      "gondor" "5" = .dbError ∧
    view [⟨"Gondor", "g.png", "common", "minastirith whitecity"⟩] (.ok [])
      "gondor" "5" = .notOwned "Gondor" := by
  refine ⟨rfl, by decide, by decide⟩

/-- C8 (amended): `give` and the catch credit treat a missing or corrupt
store as empty; `view` recovers locally by replying with a database-error
message (not by treating the store as empty); the `!list` handler raises
NameError — fatal to the poll loop — when the read fails before any
successful read, and silently reuses the stale previous data otherwise. -/
theorem store_read_error_behaviour :
    (∀ ball giver receiver, give (.error ()) ball giver receiver
        = give (.ok []) ball giver receiver) ∧
    (∀ userId name, catchCredit (.error ()) userId name
        = catchCredit (.ok []) userId name) ∧
    (∀ catalog ball user, view catalog (.error ()) ball user = .nameNotFound
        ∨ view catalog (.error ()) ball user = .dbError) ∧
    (∀ userId, listHandler none (.error ()) userId = .error .nameError) ∧
    (∀ d userId, listHandler (some d) (.error ()) userId
        = listHandler none (.ok d) userId) := by
  refine ⟨fun _ _ _ => rfl, fun _ _ => rfl, ?_, fun _ => rfl, fun _ _ => rfl⟩
  intro catalog ball user
  cases h : resolveBall catalog ball with
  | none => left; simp [view, h]
  | some p => right; obtain ⟨o, l⟩ := p; simp [view, h]

/-! Embedding of the spawn selection of `ballspawn` (src/main.py:213) and of
its catch-wait loop (src/main.py:235-258). -/

/-- The sample space of `random.randint(1, 2)` — both bounds inclusive. -/
def spawnDraws : List Nat := [1, 2]

/-- How many draws select raw row `i` of balls.csv (row 0 is the header, the
data rows are 1, 2, …). -/
def pickCount (i : Nat) : Nat := spawnDraws.count i

/-- `list(csv.reader(open("balls.csv")))[r]`. -/
def ballspawnChoice (rows : List (List String)) (r : Nat) : Option (List String) :=
  rows.get? r

/-- Property stated by the spec: the selection is uniform over the whole
catalog of `n` data rows, i.e. every data row is drawn with probability
`1/n` over the `spawnDraws` sample space. -/
def uniformOverDataRows (n : Nat) : Prop :=
  ∀ i < n, pickCount (i + 1) * n = spawnDraws.length

/-- C9 counterexample: on a catalog with three data rows the selection is not
uniform over the whole catalog — the third data row is drawn by neither of
the two possible draws, so its probability is 0, not 1/3. -/
theorem spawn_not_uniform_counterexample :
    ¬ uniformOverDataRows 3 ∧
    pickCount 3 = 0 ∧
    spawnDraws.length = 2 ∧
    ballspawnChoice [["name", "img", "rarity", "alts"],
      ["A", "a.png", "1", "a"], ["B", "b.png", "1", "b"],
      ["C", "c.png", "1", "c"]] 1 = some ["A", "a.png", "1", "a"] ∧
    ballspawnChoice [["name", "img", "rarity", "alts"],
      ["A", "a.png", "1", "a"], ["B", "b.png", "1", "b"],
      ["C", "c.png", "1", "c"]] 2 = some ["B", "b.png", "1", "b"] := by
  refine ⟨?_, by decide, by decide, by decide, by decide⟩
  intro h
  exact absurd (h 2 (by omega)) (by decide)

/-- C9 (amended): the spawn selection is uniform over the first two data rows
only — rows 1 and 2 are drawn with equal probability, no other row is ever
drawn, and the selection is uniform over the whole catalog when the catalog
has exactly two data rows. -/
theorem spawn_uniform_over_first_two :
    pickCount 1 = pickCount 2 ∧
    (∀ i, i ≠ 1 → i ≠ 2 → pickCount i = 0) ∧
    uniformOverDataRows 2 := by
  refine ⟨by decide, ?_, ?_⟩
  · intro i h1 h2
    simp [pickCount, spawnDraws, List.count_cons, List.count_nil]
    omega
  · intro i hi
    interval_cases i <;> decide

theorem spawn_uniform_over_first_two_witness : pickCount 5 = 0 :=
  spawn_uniform_over_first_two.2.1 5 (by decide) (by decide)

/-- `names = [x.lower() for x in ball[3].split(' ')]` of `ballspawn`. -/
def spawnNames (altsField : String) : List String :=
  (pySplitSpace altsField).map pyLower

/-- The catch test of the wait loop: `text.lower()[7:] in names`. -/
def catchCheck (names : List String) (text : String) : Bool :=
  decide (pyDrop 7 (pyLower text) ∈ names)

/-- One message-handling iteration of the wait loop: when the catch test
succeeds, the catcher is credited in the store (and the loop breaks). -/
def catchStep (names : List String) (read : Except Unit Store)
    (userId name : String) (text : String) : Option Store :=
  if catchCheck names text then some (catchCredit read userId name) else none

/-- C10: a fetched message is credited exactly when its lowercased text from
character index 7 onward equals an accepted name; the first seven characters
are never examined (any length-7 prefix yields the same outcome as any
other), and a message of at most seven characters matches exactly when the
empty string is among the accepted names. -/
theorem catch_match_contract (names : List String) (read : Except Unit Store)
    (userId name : String) :
    (∀ text, (catchStep names read userId name text).isSome
        = catchCheck names text) ∧
    (∀ text, catchCheck names text = true ↔ pyDrop 7 (pyLower text) ∈ names) ∧
    (∀ pre t, pyLen pre = 7 →
        (catchCheck names (pre ++ t) = true ↔ pyLower t ∈ names)) ∧
    (∀ text, pyLen text ≤ 7 → (catchCheck names text = true ↔ "" ∈ names)) := by
  refine ⟨?_, ?_, ?_, ?_⟩
  · intro text
    by_cases h : catchCheck names text <;> simp [catchStep, h]
  · intro text
    simp [catchCheck]
  · intro pre t hlen
    have hdrop : pyDrop 7 (pyLower (pre ++ t)) = pyLower t := by
      show (⟨((pre ++ t).data.map Char.toLower).drop 7⟩ : String)
          = ⟨t.data.map Char.toLower⟩
      have hd : (pre ++ t).data = pre.data ++ t.data := rfl
      rw [hd, List.map_append]
      have hlen7 : (pre.data.map Char.toLower).length = 7 := by
        rw [List.length_map]; exact hlen
      rw [← hlen7, List.drop_left]
    simp [catchCheck, hdrop]
  · intro text hlen
    have hdrop : pyDrop 7 (pyLower text) = "" := by
      show (⟨(text.data.map Char.toLower).drop 7⟩ : String) = ⟨[]⟩
      have : (text.data.map Char.toLower).drop 7 = [] := by
        apply List.drop_eq_nil_of_le
        rw [List.length_map]; exact hlen
      rw [this]
    simp [catchCheck, hdrop]

theorem catch_match_contract_witness :
    catchCheck ["gondor"] ("!catch " ++ "Gondor") = true ↔
      pyLower "Gondor" ∈ ["gondor"] :=
  (catch_match_contract ["gondor"] (.ok []) "1" "Gondor").2.2.1 "!catch " "Gondor"
    (by decide)

end Prontodex
